import Mathlib

/-!
Verification of the unread-cast resumable processing pipeline and its
exclusive-execution scheduler, as a shallow embedding of
`src/processing/pipeline.ts`, `src/processing/scheduler.ts` and the
collaborator interfaces they consume.  Timestamps are modelled as natural
numbers (milliseconds); the ISO-string timestamps the code stores compare
lexicographically exactly as the underlying instants compare, so `Nat`
order is faithful.  Database rows are modelled as explicit record state
threaded through each function; fallible collaborators return `Except`.
-/

/-- One item of a generated script: speaker, text and delivery instruction. -/
structure TItem where
  speaker : String
  text : String
  instruction : String
deriving DecidableEq

/-- A script is an ordered list of items (`Transcript` in the source). -/
abbrev Transcript := List TItem

/-- One `entries` row, after migration 002 added the resume columns
`force_reprocess` and `expected_segment_count`. -/
structure Entry where
  id : String
  url : String
  category : Option String
  status : String
  title : Option String
  extracted_content : Option String
  transcript_json : Option String
  error_message : Option String
  retry_count : Nat
  next_retry_at : Option Nat
  created_at : Nat
  processed_at : Option Nat
  force_reprocess : Bool
  expected_segment_count : Option Nat
deriving DecidableEq

/-- One `episodes` row as inserted by the pipeline. -/
structure Episode where
  id : String
  entry_id : String
  category : Option String
  title : String
  description : String
  audio_key : String
  audio_duration : Nat
  audio_size : Nat
  published_at : Nat
deriving DecidableEq

/-- One usage-log record as passed to `budgetService.logUsage`.  Cost is an
opaque integer supplied by the `calculateCost` collaborator. -/
structure UsageRec where
  entry_id : String
  service : String
  model : String
  input_units : Nat
  output_units : Option Nat
  cost_usd : Int
deriving DecidableEq

/-- The result record returned by `processEntry`. -/
structure ProcessingResult where
  success : Bool
  entry_id : String
  episode_id : Option String
  error : Option String
deriving DecidableEq

/-- `PipelineConfig` from pipeline.ts. -/
structure PipelineConfig where
  minContentLength : Nat
  maxRetries : Nat
deriving DecidableEq

/-- Result of `extractContent` (Readability extraction). -/
structure ExtractionResult where
  title : String
  content : String
deriving DecidableEq

/-- Result of `transcriber.extractContentWithLLM`. -/
structure LLMExtractResult where
  content : String
  provider : String
  model : String
  inputTokens : Nat
  outputTokens : Nat
deriving DecidableEq

/-- Result of `transcriber.generateTranscript`. -/
structure TranscriptResult where
  transcript : Transcript
  provider : String
  model : String
  inputTokens : Nat
  outputTokens : Nat
deriving DecidableEq

/-- Result of `ttsProcessor.processTranscript`. -/
structure TTSResult where
  segmentFiles : List String
  characters : Nat
deriving DecidableEq

/-- Result of `audioMerger.mergeAndUpload`. -/
structure AudioResult where
  audioKey : String
  audioUrl : String
  audioDuration : Nat
  audioSize : Nat
deriving DecidableEq

/-! ## Lock store (`scheduler.ts`) -/

/-- The single `processing_lock` row: optional acquisition timestamp and
optional owner identity.  A `none` timestamp means the lock is free. -/
structure LockRow where
  locked_at : Option Nat
  locked_by : Option String
deriving DecidableEq

/-- `LOCK_TIMEOUT_MS = 30 * 60 * 1000` from scheduler.ts. -/
def LOCK_TIMEOUT_MS : Nat := 30 * 60 * 1000

/-- `acquireLock` from scheduler.ts: a single atomic conditional update.
The row is updated to `(locked_at = now, locked_by = self)` exactly when
`locked_at IS NULL OR locked_at < now - LOCK_TIMEOUT_MS`; the boolean
result is whether a row was affected (`result.changes > 0`). -/
def acquireLock (row : LockRow) (now : Nat) (self : String) : Bool × LockRow :=
  match row.locked_at with
  | none => (true, ⟨some now, some self⟩)
  | some t =>
      if t < now - LOCK_TIMEOUT_MS then (true, ⟨some now, some self⟩)
      else (false, row)

/-- `releaseLock` from scheduler.ts: an unconditional update setting both
columns to NULL, whatever the row held. -/
def releaseLock (_row : LockRow) : LockRow := ⟨none, none⟩

/-! ## Pipeline (`pipeline.ts`): stage collaborators and state -/

/-- The stage-executor and budget collaborators injected into
`createProcessingPipeline`, as pure oracles.  Each fallible call returns
`Except`; `calcCost` is `budgetService.calculateCost` and `serialize` is
`JSON.stringify` on transcripts. -/
structure Oracles where
  fetchHtml : String → Except String String
  extractContent : String → Except String ExtractionResult
  extractContentWithLLM : String → Except String LLMExtractResult
  generateTranscript : String → String → Except String TranscriptResult
  processTranscript : Transcript → String → Except String TTSResult
  mergeAndUpload : List String → String → Except String AudioResult
  calcCost : String → String → Nat → Nat → Int
  serialize : Transcript → String

/-- The persisted and observable state a `processEntry` run touches: the
entry row it owns, the episode and usage tables, the failure notifications
sent, the `cleanupSegments` invocations, and a call counter per stage
executor. -/
structure PipeState where
  stored : Entry
  episodes : List Episode
  usageLog : List UsageRec
  notifications : List (String × String × String)
  cleanupCalls : List (List String)
  fetchCalls : Nat
  extractCalls : Nat
  llmExtractCalls : Nat
  scriptCalls : Nat
  synthCalls : Nat
  mergeCalls : Nat
deriving DecidableEq

/-- `calculateNextRetryAt` from pipeline.ts: delay is `2^retryCount`
minutes plus `jitterSeconds` seconds, where the code draws
`jitterSeconds = Math.floor(Math.random() * 30)` (an integer in `[0, 30)`).
The jitter draw is passed in as a parameter. -/
def calculateNextRetryAt (retryCount : Nat) (now : Nat) (jitterSeconds : Nat) : Nat :=
  now + (2 ^ retryCount * 60 + jitterSeconds) * 1000

/-- JS `title || 'Untitled'`: the empty string is falsy. -/
def titleOrUntitled (t : String) : String :=
  if t = "" then "Untitled" else t

/-- JS service pick: `provider === 'anthropic' ? 'anthropic_chat' : 'openai_chat'`. -/
def chatService (provider : String) : String :=
  if provider = "anthropic" then "anthropic_chat" else "openai_chat"

/-- The `try` block of `processEntry` (pipeline.ts lines 91-207): fetch,
extract with LLM fallback, transcript generation, TTS, merge/upload,
cleanup, episode insert and completion.  State mutations performed before a
raise survive the raise, so the body returns its state in both outcomes. -/
def processEntryBody (o : Oracles) (cfg : PipelineConfig) (entry : Entry) (epId : String)
    (now : Nat) (st0 : PipeState) : PipeState × Except String String :=
  let st1 := { st0 with fetchCalls := st0.fetchCalls + 1 }
  match o.fetchHtml entry.url with
  | .error m => (st1, .error m)
  | .ok html =>
    let st2 := { st1 with extractCalls := st1.extractCalls + 1 }
    match o.extractContent html with
    | .error m => (st2, .error m)
    | .ok er =>
      let fb :=
        if er.content.length < cfg.minContentLength then
          let st3 := { st2 with llmExtractCalls := st2.llmExtractCalls + 1 }
          match o.extractContentWithLLM html with
          | .error m => (st3, Except.error m)
          | .ok llm =>
            let service := chatService llm.provider
            let r1 : UsageRec :=
              ⟨entry.id, service, llm.model, llm.inputTokens, some llm.outputTokens,
                o.calcCost service llm.model llm.inputTokens llm.outputTokens⟩
            ({ st3 with usageLog := st3.usageLog ++ [r1] }, Except.ok llm.content)
        else (st2, Except.ok er.content)
      match fb with
      | (st3, .error m) => (st3, .error m)
      | (st3, .ok content) =>
        if content.length < cfg.minContentLength then
          (st3, .error "Insufficient content extracted")
        else
          let ti := titleOrUntitled er.title
          let st4 := { st3 with
            stored := { st3.stored with title := some ti, extracted_content := some content } }
          let st5 := { st4 with scriptCalls := st4.scriptCalls + 1 }
          match o.generateTranscript content ti with
          | .error m => (st5, .error m)
          | .ok tr =>
            let svc := chatService tr.provider
            let r2 : UsageRec :=
              ⟨entry.id, svc, tr.model, tr.inputTokens, some tr.outputTokens,
                o.calcCost svc tr.model tr.inputTokens tr.outputTokens⟩
            let st6 := { st5 with
              usageLog := st5.usageLog ++ [r2],
              stored := { st5.stored with transcript_json := some (o.serialize tr.transcript) } }
            let st7 := { st6 with synthCalls := st6.synthCalls + 1 }
            match o.processTranscript tr.transcript entry.id with
            | .error m => (st7, .error m)
            | .ok tts =>
              let r3 : UsageRec :=
                ⟨entry.id, "openai_tts", "gpt-4o-mini-tts", tts.characters, none,
                  o.calcCost "openai_tts" "gpt-4o-mini-tts" tts.characters 0⟩
              let st8 := { st7 with
                usageLog := st7.usageLog ++ [r3],
                mergeCalls := st7.mergeCalls + 1 }
              match o.mergeAndUpload tts.segmentFiles epId with
              | .error m => (st8, .error m)
              | .ok au =>
                let st9 := { st8 with cleanupCalls := st8.cleanupCalls ++ [tts.segmentFiles] }
                let desc := content.take 200 ++ (if 200 < content.length then "..." else "")
                let ep : Episode :=
                  ⟨epId, entry.id, entry.category, ti, desc,
                    au.audioKey, au.audioDuration, au.audioSize, now⟩
                let st10 := { st9 with
                  episodes := st9.episodes ++ [ep],
                  stored := { st9.stored with status := "completed", processed_at := some now } }
                (st10, .ok epId)

/-- The initial `UPDATE entries SET status = 'processing'` of `processEntry`. -/
def markProcessing (st : PipeState) : PipeState :=
  { st with stored := { st.stored with status := "processing" } }

/-- `processEntry` from pipeline.ts: marks the entry processing, runs the
staged body, and on any body exception re-reads the current `retry_count`
from the store, increments it, and either marks the entry permanently
failed (notifying once) or schedules a retry with exponential backoff.
The terminal branch updates only `status`, `error_message` and
`retry_count` (it does not touch `next_retry_at`), exactly as the source
UPDATE statement does. -/
def processEntry (o : Oracles) (cfg : PipelineConfig) (entry : Entry) (epId : String)
    (now jitter : Nat) (st : PipeState) : PipeState × ProcessingResult :=
  match processEntryBody o cfg entry epId now (markProcessing st) with
  | (st1, .ok eId) => (st1, ⟨true, entry.id, some eId, none⟩)
  | (st1, .error msg) =>
    let currentRetryCount := st1.stored.retry_count
    let newRetryCount := currentRetryCount + 1
    if cfg.maxRetries ≤ newRetryCount then
      ({ st1 with
          stored := { st1.stored with
            status := "failed", error_message := some msg, retry_count := newRetryCount },
          notifications := st1.notifications ++ [(entry.id, entry.url, msg)] },
        ⟨false, entry.id, none, some msg⟩)
    else
      ({ st1 with
          stored := { st1.stored with
            status := "failed", error_message := some msg, retry_count := newRetryCount,
            next_retry_at := some (calculateNextRetryAt currentRetryCount now jitter) } },
        ⟨false, entry.id, none, some msg⟩)

/-! ## Scheduler processing job (`scheduler.ts`) -/

/-- The record returned by `budgetService.getStatus`.  Monetary amounts are
opaque payload carried into notifications. -/
structure BudgetStatus where
  status : String
  spent_usd : Nat
  budget_usd : Nat
  percent_used : Nat
  processing_enabled : Bool
deriving DecidableEq

/-- A budget notification sent by the job: `sendBudgetWarning` carries
percent/spent/budget, `sendBudgetExceeded` carries spent/budget. -/
inductive BudgetNotice where
  | warning (percent spent budget : Nat)
  | exceeded (spent budget : Nat)
deriving DecidableEq

/-- Collaborators of `runProcessingJob`: the one-shot `getStatus` call, the
per-iteration `canProcess` checks (indexed by call number; the call may
reject), and the pipeline's structured per-entry result. -/
structure JobOracles where
  getStatus : Except String BudgetStatus
  canProcess : Nat → Except String Bool
  entrySuccess : Entry → Bool

/-- Observable state of one `runProcessingJob` run: the lock row, the
`entries` table, the retained `previousBudgetStatus`, budget notifications
sent, the ids handed to `processEntry` in order, and how many mid-batch
budget checks ran. -/
structure JobState where
  lock : LockRow
  entries : List Entry
  prevBudgetStatus : String
  budgetNotices : List BudgetNotice
  processedIds : List String
  checksPerformed : Nat
deriving DecidableEq

/-- Eligibility predicate of the selection query: `status = 'pending'` or
(`status = 'failed'` and `retry_count < maxRetries` and
(`next_retry_at IS NULL` or `next_retry_at <= now`)). -/
def isEligible (maxRetries now : Nat) (e : Entry) : Bool :=
  e.status == "pending" ||
    (e.status == "failed" && decide (e.retry_count < maxRetries) &&
      (match e.next_retry_at with
       | none => true
       | some t => decide (t ≤ now)))

/-- Insertion step of the `ORDER BY created_at ASC` sort. -/
def insertByCreated (e : Entry) : List Entry → List Entry
  | [] => [e]
  | x :: xs =>
      if e.created_at < x.created_at then e :: x :: xs else x :: insertByCreated e xs

/-- Ascending sort on `created_at` (oldest first). -/
def sortByCreated : List Entry → List Entry
  | [] => []
  | x :: xs => insertByCreated x (sortByCreated xs)

/-- The selection query of `runProcessingJob`: eligible entries ordered by
creation time ascending. -/
def selectEligible (maxRetries now : Nat) (entries : List Entry) : List Entry :=
  sortByCreated (entries.filter (isEligible maxRetries now))

/-- The sequential batch loop of `runProcessingJob`: before each entry,
re-check budget eligibility; a check returning false breaks the loop at
once; a rejecting check propagates out of the loop. -/
def batchLoop (o : JobOracles) : List Entry → Nat → JobState → JobState × Except String Unit
  | [], _, st => (st, .ok ())
  | e :: es, i, st =>
    let st1 := { st with checksPerformed := st.checksPerformed + 1 }
    match o.canProcess i with
    | .error m => (st1, .error m)
    | .ok false => (st1, .ok ())
    | .ok true =>
        let _ := o.entrySuccess e
        batchLoop o es (i + 1) { st1 with processedIds := st1.processedIds ++ [e.id] }

/-- The budget phase of `runProcessingJob` (its inner try/catch): query the
status once; fire `sendBudgetWarning` on an ok-to-warning transition or
`sendBudgetExceeded` on an any-to-exceeded transition; remember the status;
report whether processing may proceed.  A `getStatus` failure is swallowed
and the job proceeds. -/
def budgetPhase (o : JobOracles) (st : JobState) : JobState × Bool :=
  match o.getStatus with
  | .error _ => (st, true)
  | .ok s =>
    let st1 :=
      if s.status = "warning" ∧ st.prevBudgetStatus = "ok" then
        { st with budgetNotices :=
            st.budgetNotices ++ [.warning s.percent_used s.spent_usd s.budget_usd] }
      else if s.status = "exceeded" ∧ st.prevBudgetStatus ≠ "exceeded" then
        { st with budgetNotices := st.budgetNotices ++ [.exceeded s.spent_usd s.budget_usd] }
      else st
    ({ st1 with prevBudgetStatus := s.status }, s.processing_enabled)

/-- The body of `runProcessingJob` between lock acquisition and the
`finally`: budget phase, then (if allowed) selection and the batch loop. -/
def processingJobBody (o : JobOracles) (maxRetries now : Nat) (st : JobState) :
    JobState × Except String Unit :=
  match budgetPhase o st with
  | (st1, true) => batchLoop o (selectEligible maxRetries now st1.entries) 0 st1
  | (st1, false) => (st1, .ok ())

/-- The lock discipline of `runProcessingJob`, for an arbitrary body: if
acquisition fails the job is a no-op; otherwise the body runs and the lock
is released unconditionally in a `finally`-equivalent, whether or not the
body raised and whatever the lock row then holds. -/
def runProcessingJobWith (body : JobState → JobState × Except String Unit)
    (st : JobState) (now : Nat) (self : String) : JobState × Except String Unit :=
  match acquireLock st.lock now self with
  | (true, row) =>
      let (st1, r) := body { st with lock := row }
      ({ st1 with lock := releaseLock st1.lock }, r)
  | (false, _) => (st, .ok ())

/-- `runProcessingJob` from scheduler.ts: the concrete body under the lock
discipline. -/
def runProcessingJob (o : JobOracles) (maxRetries : Nat) (st : JobState)
    (now : Nat) (self : String) : JobState × Except String Unit :=
  runProcessingJobWith (processingJobBody o maxRetries now) st now self

/-! ## Resumable pipeline

The resume-capable revision of `src/processing/pipeline.ts` is exercised by
`tests/processing/pipeline-resume.test.ts` and enabled by migration
`002-add-resume-support.sql`, but its source is not in the tree; the
definitions below model it from the spec (section 4.1), reusing the shared
failure-handling shape of the in-tree pipeline. -/

/-- Result of the Synthesize executor as the resumable pipeline consumes
it: the aggregate billed character count.  Per the spec it writes one
segment file per script item, named deterministically. -/
structure SynthResult where
  characters : Nat
deriving DecidableEq

/-- Collaborators of the resumable pipeline; `parse` is the JSON parse and
validation applied to a persisted script. -/
structure ROracles where
  fetchHtml : String → Except String String
  extractContent : String → Except String ExtractionResult
  extractContentWithLLM : String → Except String LLMExtractResult
  generateTranscript : String → String → Except String TranscriptResult
  synthesize : Transcript → String → Except String SynthResult
  mergeAndUpload : List String → String → Except String AudioResult
  calcCost : String → String → Nat → Nat → Int
  serialize : Transcript → String
  parse : String → Option Transcript

/-- State of a resumable-pipeline run: the entry row, the on-disk segment
file set (`fs`), the episode and usage tables, failure notifications, and
per-stage call counters. -/
structure RState where
  stored : Entry
  fs : List String
  episodes : List Episode
  usageLog : List UsageRec
  notifications : List (String × String × String)
  fetchCalls : Nat
  extractCalls : Nat
  llmExtractCalls : Nat
  scriptCalls : Nat
  synthCalls : Nat
  mergeCalls : Nat
deriving DecidableEq

/-- Modelled from the spec: the pure deterministic per-segment filename,
`segmentPath(entryId, index)`, derived from the entry id and a zero-based
index (the resume tests use `tempDir/<entryId>_<i>.aac`). -/
def segmentPath (entryId : String) (idx : Nat) : String :=
  entryId ++ "_" ++ toString idx ++ ".aac"

/-- The segment file list for an entry: indices `0 .. n-1`. -/
def segList (entryId : String) (n : Nat) : List String :=
  (List.range n).map (segmentPath entryId)

/-- Modelled from the spec: `validateSegments(entryId, expectedCount)`
re-derives each per-segment filename and checks existence only (no content
or checksum check). -/
def validateSegments (fs : List String) (entryId : String) (expected : Nat) : Bool :=
  (segList entryId expected).all (fun p => fs.contains p)

/-- Whether a path is a segment file of the given entry (used by the
pre-Synthesize deletion of previously-written segments). -/
def isSegmentOf (entryId : String) (p : String) : Bool :=
  p.startsWith (entryId ++ "_")

/-- Resume points: the earliest stage that must (re)run. -/
inductive Stage where
  | fetch
  | script
  | synth
  | merge
deriving DecidableEq

/-- Modelled from the spec: resume-point determination, run once before any
stage.  No extracted content resumes at Fetch; a missing or unparseable
script resumes at Script-Generate; a missing segment count or failed
segment validation resumes at Synthesize; otherwise Merge. -/
def resumePoint (parse : String → Option Transcript) (fs : List String) (e : Entry) : Stage :=
  match e.extracted_content with
  | none => .fetch
  | some _ =>
    match e.transcript_json with
    | none => .script
    | some s =>
      match parse s with
      | none => .script
      | some _ =>
        match e.expected_segment_count with
        | none => .synth
        | some n => if validateSegments fs e.id n then .merge else .synth

/-- Episode metadata produced by a successful merge: the episode id and the
segment count that was merged. -/
structure MergeInfo where
  episodeId : String
  segCount : Nat
deriving DecidableEq

/-- Modelled from the spec: the Merge/Publish stage.  The segment paths are
re-derived from the entry id and count; on success all segment files for
the entry are deleted, the episode row is inserted and the entry completed. -/
def runMerge (o : ROracles) (epId : String) (now : Nat) (ti content : String) (n : Nat)
    (st : RState) : RState × Except String MergeInfo :=
  let segs := segList st.stored.id n
  let st1 := { st with mergeCalls := st.mergeCalls + 1 }
  match o.mergeAndUpload segs epId with
  | .error m => (st1, .error m)
  | .ok au =>
    let st2 := { st1 with fs := st1.fs.filter (fun p => !(decide (p ∈ segs))) }
    let desc := content.take 200 ++ (if 200 < content.length then "..." else "")
    let ep : Episode :=
      ⟨epId, st2.stored.id, st2.stored.category, ti, desc,
        au.audioKey, au.audioDuration, au.audioSize, now⟩
    ({ st2 with
        episodes := st2.episodes ++ [ep],
        stored := { st2.stored with status := "completed", processed_at := some now } },
      .ok ⟨epId, n⟩)

/-- Modelled from the spec: the Synthesize stage.  Previously-written
segment files for the entry are deleted before regenerating; fresh segment
files are written, one per script item; aggregate usage is logged and
`expected_segment_count` persisted before moving on to Merge. -/
def runSynth (o : ROracles) (epId : String) (now : Nat) (ti content : String) (t : Transcript)
    (st : RState) : RState × Except String MergeInfo :=
  let eid := st.stored.id
  let st1 := { st with
    fs := st.fs.filter (fun p => !(isSegmentOf eid p)),
    synthCalls := st.synthCalls + 1 }
  match o.synthesize t eid with
  | .error m => (st1, .error m)
  | .ok sy =>
    let n := t.length
    let r : UsageRec :=
      ⟨eid, "openai_tts", "gpt-4o-mini-tts", sy.characters, none,
        o.calcCost "openai_tts" "gpt-4o-mini-tts" sy.characters 0⟩
    let st2 := { st1 with
      fs := st1.fs ++ segList eid n,
      usageLog := st1.usageLog ++ [r],
      stored := { st1.stored with expected_segment_count := some n } }
    runMerge o epId now ti content n st2

/-- Modelled from the spec: the Script-Generate stage.  Produces the script
from body text, logs its usage, persists the serialized script, then runs
Synthesize. -/
def runScript (o : ROracles) (epId : String) (now : Nat) (ti content : String)
    (st : RState) : RState × Except String MergeInfo :=
  let st1 := { st with scriptCalls := st.scriptCalls + 1 }
  match o.generateTranscript content ti with
  | .error m => (st1, .error m)
  | .ok tr =>
    let svc := chatService tr.provider
    let r : UsageRec :=
      ⟨st1.stored.id, svc, tr.model, tr.inputTokens, some tr.outputTokens,
        o.calcCost svc tr.model tr.inputTokens tr.outputTokens⟩
    let st2 := { st1 with
      usageLog := st1.usageLog ++ [r],
      stored := { st1.stored with transcript_json := some (o.serialize tr.transcript) } }
    runSynth o epId now ti content tr.transcript st2

/-- Modelled from the spec: the tail of the Extract stage, on the content
chosen (structural extraction or model-based fallback).  Fails on
insufficient content; otherwise persists title and body and runs
Script-Generate. -/
def runExtracted (o : ROracles) (cfg : PipelineConfig) (epId : String) (now : Nat)
    (er : ExtractionResult) (content : String) (st : RState) :
    RState × Except String MergeInfo :=
  if content.length < cfg.minContentLength then
    (st, .error "Insufficient content extracted")
  else
    let ti := titleOrUntitled er.title
    let st4 := { st with
      stored := { st.stored with title := some ti, extracted_content := some content } }
    runScript o epId now ti content st4

/-- Modelled from the spec: the Fetch and Extract stages.  Fetches the
source document, extracts content with the model-based fallback (logging
its usage) when the body is too short, then continues with the chosen
content. -/
def runFetch (o : ROracles) (cfg : PipelineConfig) (epId : String) (now : Nat)
    (st : RState) : RState × Except String MergeInfo :=
  let st1 := { st with fetchCalls := st.fetchCalls + 1 }
  match o.fetchHtml st.stored.url with
  | .error m => (st1, .error m)
  | .ok html =>
    let st2 := { st1 with extractCalls := st1.extractCalls + 1 }
    match o.extractContent html with
    | .error m => (st2, .error m)
    | .ok er =>
      if er.content.length < cfg.minContentLength then
        let st3 := { st2 with llmExtractCalls := st2.llmExtractCalls + 1 }
        match o.extractContentWithLLM html with
        | .error m => (st3, .error m)
        | .ok llm =>
          let svc := chatService llm.provider
          let r : UsageRec :=
            ⟨st3.stored.id, svc, llm.model, llm.inputTokens, some llm.outputTokens,
              o.calcCost svc llm.model llm.inputTokens llm.outputTokens⟩
          runExtracted o cfg epId now er llm.content
            { st3 with usageLog := st3.usageLog ++ [r] }
      else runExtracted o cfg epId now er er.content st2

/-- Modelled from the spec: the staged body of the resumable `processEntry`:
determine the resume point from the persisted artifacts and the on-disk
segment set, then run the remaining stages in order, reusing cached
results for the skipped ones. -/
def processBody (o : ROracles) (cfg : PipelineConfig) (epId : String) (now : Nat)
    (st : RState) : RState × Except String MergeInfo :=
  let e := st.stored
  let content := e.extracted_content.getD ""
  let ti := e.title.getD "Untitled"
  match resumePoint o.parse st.fs e with
  | .fetch => runFetch o cfg epId now st
  | .script => runScript o epId now ti content st
  | .synth => runSynth o epId now ti content ((e.transcript_json.bind o.parse).getD []) st
  | .merge => runMerge o epId now ti content (e.expected_segment_count.getD 0) st

/-- Modelled from the spec: the start of a resumable run.  When
`force_reprocess` is set, all intermediate artifacts and the flag are
cleared (forcing resume at Fetch); the entry is then marked processing. -/
def prepState (st : RState) : RState :=
  let cleared :=
    if st.stored.force_reprocess then
      { st with stored := { st.stored with
          force_reprocess := false, title := none, extracted_content := none,
          transcript_json := none, expected_segment_count := none } }
    else st
  { cleared with stored := { cleared.stored with status := "processing" } }

/-- Modelled from the spec: the resumable `processEntry`.  It never throws:
the staged body's exception is caught at the top level, the current retry
count is re-read from the store and incremented, and the entry is either
marked permanently failed (`next_retry_at = NULL`, one notification) or
scheduled for a backoff retry.  Segment files are untouched on failure. -/
def processEntryResume (o : ROracles) (cfg : PipelineConfig) (epId : String)
    (now jitter : Nat) (st : RState) : RState × ProcessingResult :=
  match processBody o cfg epId now (prepState st) with
  | (st1, .ok info) => (st1, ⟨true, st.stored.id, some info.episodeId, none⟩)
  | (st1, .error msg) =>
    let k := st1.stored.retry_count
    if cfg.maxRetries ≤ k + 1 then
      ({ st1 with
          stored := { st1.stored with
            status := "failed", error_message := some msg, retry_count := k + 1,
            next_retry_at := none },
          notifications := st1.notifications ++ [(st1.stored.id, st1.stored.url, msg)] },
        ⟨false, st.stored.id, none, some msg⟩)
    else
      ({ st1 with
          stored := { st1.stored with
            status := "failed", error_message := some msg, retry_count := k + 1,
            next_retry_at := some (calculateNextRetryAt k now jitter) } },
        ⟨false, st.stored.id, none, some msg⟩)

/-! ## Concrete fixtures used by the witnesses -/

/-- All segment files of an entry with the given count are absent from the
file set. -/
def segsCleared (eid : String) (cnt : Nat) (fs : List String) : Prop :=
  ∀ i, i < cnt → segmentPath eid i ∉ fs

/-- A fresh pending entry. -/
def entry0 : Entry :=
  ⟨"e1", "http://u", some "default", "pending", none, none, none, none,
    0, none, 10, none, false, none⟩

/-- An entry on its last allowed attempt, carrying the non-NULL
`next_retry_at` its previous scheduled retry wrote. -/
def cexEntry : Entry :=
  { entry0 with status := "failed", retry_count := 2, next_retry_at := some 555 }

/-- Initial pipeline state holding one entry row. -/
def pstOf (e : Entry) : PipeState := ⟨e, [], [], [], [], 0, 0, 0, 0, 0, 0⟩

/-- Collaborators that all fail (the first stage reached raises "boom"). -/
def oErr : Oracles :=
  ⟨fun _ => .error "boom", fun _ => .error "boom", fun _ => .error "boom",
    fun _ _ => .error "boom", fun _ _ => .error "boom", fun _ _ => .error "boom",
    fun _ _ _ _ => 0, fun _ => "[]"⟩

/-- `minContentLength = 5`, `maxRetries = 3`. -/
def cfg53 : PipelineConfig := ⟨5, 3⟩

/-- A two-item script fixture. -/
def tT : Transcript := [⟨"NARRATOR", "hi", "clear"⟩, ⟨"NARRATOR", "more", "clear"⟩]

/-- Resumable-pipeline collaborators that all succeed; the persisted script
"SER" parses back to `tT`. -/
def oRok : ROracles :=
  ⟨fun _ => .ok "<html>",
    fun _ => .ok ⟨"Test Article", "abcdefghij"⟩,
    fun _ => .ok ⟨"llm content ok", "openai", "gpt-4o", 5, 2⟩,
    fun _ _ => .ok ⟨tT, "anthropic", "claude", 10, 5⟩,
    fun _ _ => .ok ⟨100⟩,
    fun _ _ => .ok ⟨"ep.aac", "http://r2/ep.aac", 120, 999⟩,
    fun _ _ _ _ => 1,
    fun _ => "SER",
    fun s => if s = "SER" then some tT else none⟩

/-- An entry with full cached intermediate state. -/
def eFull : Entry :=
  ⟨"e9", "http://e9", none, "failed", some "T", some "abcdefghij", some "SER",
    none, 0, none, 5, none, false, some 2⟩

/-- Resumable-pipeline state with `eFull` and its two segment files on disk. -/
def stFull : RState := ⟨eFull, segList "e9" 2, [], [], [], 0, 0, 0, 0, 0, 0⟩

/-- `eFull` with the force-reprocess flag set. -/
def eForce : Entry := { eFull with id := "e8", url := "http://e8", force_reprocess := true }

/-- Resumable-pipeline state with `eForce` and a stale segment file. -/
def stForce : RState := ⟨eForce, [segmentPath "e8" 0], [], [], [], 0, 0, 0, 0, 0, 0⟩

/-- A pending entry for the scheduler fixtures. -/
def entP (i : String) (c : Nat) : Entry :=
  ⟨i, "http://" ++ i, none, "pending", none, none, none, none, 0, none, c, none, false, none⟩

/-- Job state with a free lock and three pending entries. -/
def jobSt3 : JobState :=
  ⟨⟨none, none⟩, [entP "a" 1, entP "b" 2, entP "c" 3], "ok", [], [], 0⟩

/-- Job collaborators: budget ok, first mid-batch check passes and the
second fails. -/
def oJob : JobOracles :=
  ⟨.ok ⟨"ok", 1, 10, 10, true⟩, fun i => .ok (i == 0), fun _ => true⟩

/-- Job collaborators whose `getStatus` call rejects. -/
def oJobErr : JobOracles :=
  ⟨.error "db down", fun _ => .ok true, fun _ => true⟩

/-! ## Claim theorems -/

/-- Claim C3: lock acquisition is a single atomic conditional update with
success decided by whether a row was affected.  An attempt against a lock
held for less than the 30-minute stale threshold fails and leaves the row
unchanged; against a free lock it succeeds; against a stale lock it
succeeds and overwrites the prior owner's identity; and after a successful
acquisition of a free lock, an immediately following attempt (within the
stale threshold) fails, so two concurrent attempts yield exactly one
success. -/
theorem acquireLock_cas (row : LockRow) (now now2 : Nat) (a b : String) :
    (∀ t, row.locked_at = some t → now < t + LOCK_TIMEOUT_MS →
      acquireLock row now a = (false, row)) ∧
    (row.locked_at = none → acquireLock row now a = (true, ⟨some now, some a⟩)) ∧
    (∀ t, row.locked_at = some t → t + LOCK_TIMEOUT_MS < now →
      acquireLock row now a = (true, ⟨some now, some a⟩)) ∧
    (row.locked_at = none → now2 ≤ now + LOCK_TIMEOUT_MS →
      (acquireLock (acquireLock row now a).2 now2 b).1 = false) := by
  refine ⟨?_, ?_, ?_, ?_⟩
  · intro t ht hlt
    simp only [acquireLock, ht]
    rw [if_neg (by omega)]
  · intro h
    simp only [acquireLock, h]
  · intro t ht hgt
    simp only [acquireLock, ht]
    rw [if_pos (by omega)]
  · intro h hle
    simp only [acquireLock, h]
    rw [if_neg (by omega)]

/-- Witness for C3 at concrete lock states: a free lock is taken, the
immediately following attempt fails, a fresh holder is not displaced, and a
stale holder is displaced with its identity overwritten. -/
theorem acquireLock_cas_witness :
    acquireLock ⟨none, none⟩ 100 "h1" = (true, ⟨some 100, some "h1"⟩) ∧
    (acquireLock (acquireLock ⟨none, none⟩ 100 "h1").2 100 "h2").1 = false ∧
    acquireLock ⟨some 90, some "h1"⟩ 100 "h2" = (false, ⟨some 90, some "h1"⟩) ∧
    acquireLock ⟨some 0, some "h1"⟩ (LOCK_TIMEOUT_MS + 1) "h2" =
      (true, ⟨some (LOCK_TIMEOUT_MS + 1), some "h2"⟩) :=
  ⟨(acquireLock_cas ⟨none, none⟩ 100 100 "h1" "h2").2.1 rfl,
    (acquireLock_cas ⟨none, none⟩ 100 100 "h1" "h2").2.2.2 rfl (by decide),
    (acquireLock_cas ⟨some 90, some "h1"⟩ 100 0 "h2" "x").1 90 rfl (by decide),
    (acquireLock_cas ⟨some 0, some "h1"⟩ (LOCK_TIMEOUT_MS + 1) 0 "h2" "x").2.2.1 0 rfl
      (by decide)⟩

/-- Claim C9: lock release is unconditional and runs in a
`finally`-equivalent: whenever acquisition succeeded, the lock row is free
after the job, whatever the body did (including raising, and whatever
owner identity the row then held); and when acquisition failed the job is
a no-op. -/
theorem lock_release_in_finally (body : JobState → JobState × Except String Unit)
    (st : JobState) (now : Nat) (self : String) :
    ((acquireLock st.lock now self).1 = true →
      (runProcessingJobWith body st now self).1.lock = ⟨none, none⟩) ∧
    ((acquireLock st.lock now self).1 = false →
      runProcessingJobWith body st now self = (st, .ok ())) := by
  rcases h : acquireLock st.lock now self with ⟨acq, row⟩
  rcases acq with _ | _
  · refine ⟨fun hc => by simp at hc, fun _ => ?_⟩
    simp only [runProcessingJobWith, h]
  · rcases hb : body { st with lock := row } with ⟨st1, r⟩
    refine ⟨fun _ => ?_, fun hc => by simp at hc⟩
    simp only [runProcessingJobWith, h, hb, releaseLock]

/-- Witness for C9: a concrete job whose body raises still leaves the lock
row free. -/
theorem lock_release_in_finally_witness :
    (runProcessingJobWith (fun s => (s, .error "loop blew up")) jobSt3 100 "h1").1.lock =
      ⟨none, none⟩ :=
  (lock_release_in_finally (fun s => (s, .error "loop blew up")) jobSt3 100 "h1").1 (by decide)

/-- Claim C7: `processEntry` never throws: it is a total function whose
result always carries the entry id, and whenever the staged body raises —
whatever the stage executors do — the exception is converted into a
persisted transition to `status = 'failed'` with the error message stored,
and a structured `{success: false, entryId, error}` result is returned. -/
theorem processEntry_never_throws (o : Oracles) (cfg : PipelineConfig) (entry : Entry)
    (epId : String) (now j : Nat) (st : PipeState) :
    (processEntry o cfg entry epId now j st).2.entry_id = entry.id ∧
    ((processEntry o cfg entry epId now j st).2.success = true ∨
      ((processEntry o cfg entry epId now j st).2.success = false ∧
        ((processEntry o cfg entry epId now j st).2.error).isSome = true ∧
        (processEntry o cfg entry epId now j st).1.stored.status = "failed" ∧
        (processEntry o cfg entry epId now j st).1.stored.error_message =
          (processEntry o cfg entry epId now j st).2.error)) := by
  rcases hb : processEntryBody o cfg entry epId now (markProcessing st) with ⟨st1, r⟩
  rcases r with m | v
  · by_cases hm : cfg.maxRetries ≤ st1.stored.retry_count + 1 <;>
      simp [processEntry, hb, hm]
  · simp [processEntry, hb]

/-- Counterexample for C2: an entry on its last allowed attempt that still
carries the non-NULL `next_retry_at` written by its previous scheduled
retry.  After the terminal failure the entry has `status = 'failed'` and
`retry_count = maxRetries`, yet `next_retry_at` keeps its stale non-NULL
value: the terminal UPDATE writes only status, error message and retry
count, so the claimed invariant fails. -/
theorem terminal_failure_next_retry_cex :
    (processEntry oErr cfg53 cexEntry "ep" 1000 0 (pstOf cexEntry)).1.stored.status =
      "failed" ∧
    cfg53.maxRetries ≤
      (processEntry oErr cfg53 cexEntry "ep" 1000 0 (pstOf cexEntry)).1.stored.retry_count ∧
    (processEntry oErr cfg53 cexEntry "ep" 1000 0 (pstOf cexEntry)).1.stored.next_retry_at =
      some 555 := by
  decide

/-- Claim C2 as amended: on a terminal failure (`newRetryCount ≥
maxRetries`) `processEntry` persists `status='failed'`, the error message
and `retry_count = newRetryCount`, leaves `next_retry_at` unchanged rather
than writing NULL, notifies the failure collaborator exactly once with the
entry id, URL and message, and returns the failure result; the claimed
invariant therefore holds only when `next_retry_at` was already NULL when
the terminal failure was handled. -/
theorem terminal_failure_amended (o : Oracles) (cfg : PipelineConfig) (entry : Entry)
    (epId : String) (now j : Nat) (st st1 : PipeState) (msg : String)
    (hbody : processEntryBody o cfg entry epId now (markProcessing st) = (st1, .error msg))
    (hterm : cfg.maxRetries ≤ st1.stored.retry_count + 1) :
    (processEntry o cfg entry epId now j st).1.stored.status = "failed" ∧
    (processEntry o cfg entry epId now j st).1.stored.error_message = some msg ∧
    (processEntry o cfg entry epId now j st).1.stored.retry_count =
      st1.stored.retry_count + 1 ∧
    (processEntry o cfg entry epId now j st).1.stored.next_retry_at =
      st1.stored.next_retry_at ∧
    (processEntry o cfg entry epId now j st).1.notifications =
      st1.notifications ++ [(entry.id, entry.url, msg)] ∧
    (processEntry o cfg entry epId now j st).2 = ⟨false, entry.id, none, some msg⟩ := by
  simp [processEntry, hbody, hterm]

/-- Witness for the amended C2 at the concrete terminal failure. -/
theorem terminal_failure_amended_witness :
    (processEntry oErr cfg53 cexEntry "ep" 1000 0 (pstOf cexEntry)).1.stored.status =
      "failed" ∧
    (processEntry oErr cfg53 cexEntry "ep" 1000 0 (pstOf cexEntry)).1.stored.error_message =
      some "boom" ∧
    (processEntry oErr cfg53 cexEntry "ep" 1000 0 (pstOf cexEntry)).1.stored.retry_count =
      3 ∧
    (processEntry oErr cfg53 cexEntry "ep" 1000 0 (pstOf cexEntry)).1.stored.next_retry_at =
      some 555 ∧
    (processEntry oErr cfg53 cexEntry "ep" 1000 0 (pstOf cexEntry)).1.notifications =
      [("e1", "http://u", "boom")] ∧
    (processEntry oErr cfg53 cexEntry "ep" 1000 0 (pstOf cexEntry)).2 =
      ⟨false, "e1", none, some "boom"⟩ :=
  terminal_failure_amended oErr cfg53 cexEntry "ep" 1000 0 (pstOf cexEntry) _ "boom" rfl
    (by decide)

/-- Claim C5: on a non-terminal failure with pre-increment retry count `k`
and jitter draw `j < 30`, the persisted `next_retry_at` lies in the
half-open interval `[now + 2^k * 60s, now + 2^k * 60s + 30s)` (times in
milliseconds). -/
theorem retry_backoff_interval (o : Oracles) (cfg : PipelineConfig) (entry : Entry)
    (epId : String) (now j : Nat) (st st1 : PipeState) (msg : String)
    (hbody : processEntryBody o cfg entry epId now (markProcessing st) = (st1, .error msg))
    (hnonterm : st1.stored.retry_count + 1 < cfg.maxRetries)
    (hj : j < 30) :
    ∃ v, (processEntry o cfg entry epId now j st).1.stored.next_retry_at = some v ∧
      now + 2 ^ st1.stored.retry_count * 60000 ≤ v ∧
      v < now + 2 ^ st1.stored.retry_count * 60000 + 30000 := by
  refine ⟨calculateNextRetryAt st1.stored.retry_count now j, ?_, ?_, ?_⟩
  · simp [processEntry, hbody]
    rw [if_neg (by omega)]
  · simp only [calculateNextRetryAt]
    omega
  · simp only [calculateNextRetryAt]
    omega

/-- Witness for C5: a first failure (`k = 0`) with jitter draw 7 schedules
the retry inside `[now + 60s, now + 90s)`. -/
theorem retry_backoff_interval_witness :
    ∃ v, (processEntry oErr cfg53 entry0 "ep" 1000 7 (pstOf entry0)).1.stored.next_retry_at =
        some v ∧
      1000 + 2 ^ 0 * 60000 ≤ v ∧ v < 1000 + 2 ^ 0 * 60000 + 30000 := by
  have h := retry_backoff_interval oErr cfg53 entry0 "ep" 1000 7 (pstOf entry0)
    { markProcessing (pstOf entry0) with fetchCalls := 1 } "boom" rfl (by decide) (by decide)
  simpa using h

/-- The batch loop only consumes checks and records processed entries; it
never touches budget notifications or the remembered budget status. -/
theorem batchLoop_frame (o : JobOracles) (es : List Entry) (i : Nat) (st : JobState) :
    (batchLoop o es i st).1.budgetNotices = st.budgetNotices ∧
    (batchLoop o es i st).1.prevBudgetStatus = st.prevBudgetStatus := by
  induction es generalizing i st with
  | nil => simp [batchLoop]
  | cons e es ih =>
    rcases h : o.canProcess i with m | b
    · simp [batchLoop, h]
    · cases b
      · simp [batchLoop, h]
      · simpa [batchLoop, h] using ih (i + 1) _

/-- The budget phase leaves the entries table, the processed-id log, the
check counter and the lock untouched. -/
theorem budgetPhase_frame (o : JobOracles) (st : JobState) :
    (budgetPhase o st).1.entries = st.entries ∧
    (budgetPhase o st).1.processedIds = st.processedIds ∧
    (budgetPhase o st).1.checksPerformed = st.checksPerformed ∧
    (budgetPhase o st).1.lock = st.lock := by
  unfold budgetPhase
  cases h : o.getStatus with
  | error m => simp
  | ok s =>
    simp only
    split_ifs <;> simp

/-- A successful status query propagates its `processing_enabled` flag. -/
theorem budgetPhase_enabled (o : JobOracles) (st : JobState) (s : BudgetStatus)
    (hs : o.getStatus = .ok s) : (budgetPhase o st).2 = s.processing_enabled := by
  simp [budgetPhase, hs]

/-- Claim C6: the processing job handles eligible entries strictly
sequentially, re-checking budget eligibility before each entry; with three
eligible entries and a check sequence starting `[true, false]`, exactly
one entry is processed and the loop exits after the second check, before
the third. -/
theorem mid_batch_budget_stop (o : JobOracles) (maxRetries now : Nat) (st : JobState)
    (self : String) (e1 e2 e3 : Entry) (s : BudgetStatus)
    (hlock : st.lock.locked_at = none)
    (hs : o.getStatus = .ok s) (hen : s.processing_enabled = true)
    (hsel : selectEligible maxRetries now st.entries = [e1, e2, e3])
    (hc0 : o.canProcess 0 = .ok true) (hc1 : o.canProcess 1 = .ok false)
    (hp : st.processedIds = []) (hch : st.checksPerformed = 0) :
    (runProcessingJob o maxRetries st now self).1.processedIds = [e1.id] ∧
    (runProcessingJob o maxRetries st now self).1.checksPerformed = 2 := by
  have hacq : acquireLock st.lock now self = (true, ⟨some now, some self⟩) := by
    simp [acquireLock, hlock]
  rcases hb : budgetPhase o { st with lock := ⟨some now, some self⟩ } with ⟨b1, can⟩
  have hcan : can = true := by
    have h := budgetPhase_enabled o { st with lock := ⟨some now, some self⟩ } s hs
    rw [hb] at h
    simp at h
    rw [h]
    exact hen
  subst hcan
  have hfr := budgetPhase_frame o { st with lock := ⟨some now, some self⟩ }
  rw [hb] at hfr
  simp at hfr
  obtain ⟨hbe, hbp, hbc, _⟩ := hfr
  have hsel2 : selectEligible maxRetries now b1.entries = [e1, e2, e3] := by
    rw [hbe]; exact hsel
  simp only [runProcessingJob, runProcessingJobWith, hacq]
  simp only [processingJobBody, hb]
  rw [hsel2]
  simp [batchLoop, hc0, hc1, hbp, hbc, hp, hch]

/-- Witness for C6 at a concrete job state with three pending entries and
the check sequence `[true, false, ...]`. -/
theorem mid_batch_budget_stop_witness :
    (runProcessingJob oJob 5 jobSt3 100 "h1").1.processedIds = ["a"] ∧
    (runProcessingJob oJob 5 jobSt3 100 "h1").1.checksPerformed = 2 := by
  have h := mid_batch_budget_stop oJob 5 100 jobSt3 "h1" (entP "a" 1) (entP "b" 2)
    (entP "c" 3) ⟨"ok", 1, 10, 10, true⟩ rfl rfl rfl (by decide) rfl rfl rfl rfl
  simpa using h

/-- Claim C10: a failing `budgetService.getStatus` is swallowed: the budget
phase returns the state unchanged (no notification, remembered status kept)
with processing allowed, and the job proceeds to selection and the batch
loop exactly as if the budget permitted processing; the loop itself never
adds budget notifications or changes the remembered status. -/
theorem budget_status_error_fails_open (o : JobOracles) (maxRetries now : Nat)
    (st : JobState) (msg : String) (hs : o.getStatus = .error msg) :
    budgetPhase o st = (st, true) ∧
    processingJobBody o maxRetries now st =
      batchLoop o (selectEligible maxRetries now st.entries) 0 st ∧
    (processingJobBody o maxRetries now st).1.budgetNotices = st.budgetNotices ∧
    (processingJobBody o maxRetries now st).1.prevBudgetStatus = st.prevBudgetStatus := by
  have h1 : budgetPhase o st = (st, true) := by simp [budgetPhase, hs]
  have h2 : processingJobBody o maxRetries now st =
      batchLoop o (selectEligible maxRetries now st.entries) 0 st := by
    simp [processingJobBody, h1]
  refine ⟨h1, h2, ?_, ?_⟩ <;> rw [h2]
  · exact (batchLoop_frame o _ 0 st).1
  · exact (batchLoop_frame o _ 0 st).2

/-- Witness for C10 at a concrete job whose status query rejects. -/
theorem budget_status_error_fails_open_witness :
    budgetPhase oJobErr jobSt3 = (jobSt3, true) ∧
    processingJobBody oJobErr 5 100 jobSt3 =
      batchLoop oJobErr (selectEligible 5 100 jobSt3.entries) 0 jobSt3 ∧
    (processingJobBody oJobErr 5 100 jobSt3).1.budgetNotices = jobSt3.budgetNotices ∧
    (processingJobBody oJobErr 5 100 jobSt3).1.prevBudgetStatus = jobSt3.prevBudgetStatus :=
  budget_status_error_fails_open oJobErr 5 100 jobSt3 "db down" rfl

/-- The Merge stage performs exactly one merge call and logs no usage,
leaving every other stage counter unchanged, whether or not the merge
succeeds. -/
theorem runMerge_frame (o : ROracles) (epId : String) (now : Nat) (ti co : String)
    (n : Nat) (st : RState) :
    (runMerge o epId now ti co n st).1.fetchCalls = st.fetchCalls ∧
    (runMerge o epId now ti co n st).1.extractCalls = st.extractCalls ∧
    (runMerge o epId now ti co n st).1.llmExtractCalls = st.llmExtractCalls ∧
    (runMerge o epId now ti co n st).1.scriptCalls = st.scriptCalls ∧
    (runMerge o epId now ti co n st).1.synthCalls = st.synthCalls ∧
    (runMerge o epId now ti co n st).1.mergeCalls = st.mergeCalls + 1 ∧
    (runMerge o epId now ti co n st).1.usageLog = st.usageLog := by
  unfold runMerge
  cases h : o.mergeAndUpload (segList st.stored.id n) epId <;> simp [h]

/-- The top-level catch of the resumable pipeline changes no stage counter
and logs no usage: the final counters and usage log are those of the staged
body's outcome state. -/
theorem resumeTop_frame (o : ROracles) (cfg : PipelineConfig) (epId : String)
    (now j : Nat) (st : RState) (st1 : RState) (out : Except String MergeInfo)
    (hbody : processBody o cfg epId now (prepState st) = (st1, out)) :
    (processEntryResume o cfg epId now j st).1.fetchCalls = st1.fetchCalls ∧
    (processEntryResume o cfg epId now j st).1.extractCalls = st1.extractCalls ∧
    (processEntryResume o cfg epId now j st).1.llmExtractCalls = st1.llmExtractCalls ∧
    (processEntryResume o cfg epId now j st).1.scriptCalls = st1.scriptCalls ∧
    (processEntryResume o cfg epId now j st).1.synthCalls = st1.synthCalls ∧
    (processEntryResume o cfg epId now j st).1.mergeCalls = st1.mergeCalls ∧
    (processEntryResume o cfg epId now j st).1.usageLog = st1.usageLog := by
  rcases out with m | info
  · by_cases hterm : cfg.maxRetries ≤ st1.stored.retry_count + 1 <;>
      simp [processEntryResume, hbody, hterm]
  · simp [processEntryResume, hbody]

/-- Preparing a run (force-reprocess clearing plus the processing mark)
changes no counters, no usage log and no files. -/
theorem prepState_frame (st : RState) :
    (prepState st).fetchCalls = st.fetchCalls ∧
    (prepState st).extractCalls = st.extractCalls ∧
    (prepState st).llmExtractCalls = st.llmExtractCalls ∧
    (prepState st).scriptCalls = st.scriptCalls ∧
    (prepState st).synthCalls = st.synthCalls ∧
    (prepState st).mergeCalls = st.mergeCalls ∧
    (prepState st).usageLog = st.usageLog ∧
    (prepState st).fs = st.fs ∧
    (prepState st).stored.id = st.stored.id := by
  simp only [prepState]
  split <;> simp

/-- Claim C1: an entry with persisted extracted content, a parseable
persisted script, a persisted expected segment count and a full set of
valid on-disk segment files (and no force-reprocess) resumes at Merge:
zero Fetch, Extract, LLM-Extract, Script-Generate and Synthesize calls are
performed, exactly one Merge call is performed, and no UsageRecord is
logged, whatever the merge outcome. -/
theorem resume_full_cache_merge_only (o : ROracles) (cfg : PipelineConfig) (epId : String)
    (now j : Nat) (st : RState) (c s : String) (t : Transcript) (n : Nat)
    (hf : st.stored.force_reprocess = false)
    (hc : st.stored.extracted_content = some c)
    (hs : st.stored.transcript_json = some s)
    (hp : o.parse s = some t)
    (hn : st.stored.expected_segment_count = some n)
    (hv : validateSegments st.fs st.stored.id n = true) :
    (processEntryResume o cfg epId now j st).1.fetchCalls = st.fetchCalls ∧
    (processEntryResume o cfg epId now j st).1.extractCalls = st.extractCalls ∧
    (processEntryResume o cfg epId now j st).1.llmExtractCalls = st.llmExtractCalls ∧
    (processEntryResume o cfg epId now j st).1.scriptCalls = st.scriptCalls ∧
    (processEntryResume o cfg epId now j st).1.synthCalls = st.synthCalls ∧
    (processEntryResume o cfg epId now j st).1.mergeCalls = st.mergeCalls + 1 ∧
    (processEntryResume o cfg epId now j st).1.usageLog = st.usageLog := by
  have hPc : (prepState st).stored.extracted_content = some c := by
    simp [prepState, hf, hc]
  have hPs : (prepState st).stored.transcript_json = some s := by
    simp [prepState, hf, hs]
  have hPn : (prepState st).stored.expected_segment_count = some n := by
    simp [prepState, hf, hn]
  have hPfs : (prepState st).fs = st.fs := by
    simp [prepState, hf]
  have hPid : (prepState st).stored.id = st.stored.id := by
    simp [prepState, hf]
  have hrp : resumePoint o.parse (prepState st).fs (prepState st).stored = Stage.merge := by
    simp [resumePoint, hPc, hPs, hp, hPn, hPfs, hPid, hv]
  have hbody : processBody o cfg epId now (prepState st) =
      runMerge o epId now ((prepState st).stored.title.getD "Untitled")
        ((prepState st).stored.extracted_content.getD "") n (prepState st) := by
    simp only [processBody, hrp]
    rw [hPn]
    rfl
  obtain ⟨f1, f2, f3, f4, f5, f6, f7⟩ :=
    resumeTop_frame o cfg epId now j st _ _ (hbody.trans rfl)
  obtain ⟨r1, r2, r3, r4, r5, r6, r7⟩ :=
    runMerge_frame o epId now ((prepState st).stored.title.getD "Untitled")
      ((prepState st).stored.extracted_content.getD "") n (prepState st)
  obtain ⟨p1, p2, p3, p4, p5, p6, p7, _, _⟩ := prepState_frame st
  exact ⟨f1.trans (r1.trans p1), f2.trans (r2.trans p2), f3.trans (r3.trans p3),
    f4.trans (r4.trans p4), f5.trans (r5.trans p5),
    f6.trans (r6.trans (by rw [p6])), f7.trans (r7.trans p7)⟩

/-- Witness for C1 at a concrete fully-cached entry with both segment
files on disk: only the merge counter moves and the usage log stays empty. -/
theorem resume_full_cache_merge_only_witness :
    (processEntryResume oRok cfg53 "ep1" 50 3 stFull).1.fetchCalls = stFull.fetchCalls ∧
    (processEntryResume oRok cfg53 "ep1" 50 3 stFull).1.extractCalls = stFull.extractCalls ∧
    (processEntryResume oRok cfg53 "ep1" 50 3 stFull).1.llmExtractCalls =
      stFull.llmExtractCalls ∧
    (processEntryResume oRok cfg53 "ep1" 50 3 stFull).1.scriptCalls = stFull.scriptCalls ∧
    (processEntryResume oRok cfg53 "ep1" 50 3 stFull).1.synthCalls = stFull.synthCalls ∧
    (processEntryResume oRok cfg53 "ep1" 50 3 stFull).1.mergeCalls = stFull.mergeCalls + 1 ∧
    (processEntryResume oRok cfg53 "ep1" 50 3 stFull).1.usageLog = stFull.usageLog :=
  resume_full_cache_merge_only oRok cfg53 "ep1" 50 3 stFull "abcdefghij" "SER" tT 2
    rfl rfl rfl rfl rfl (by decide)

/-- Merge never touches the force-reprocess flag. -/
theorem runMerge_flag (o : ROracles) (epId : String) (now : Nat) (ti co : String)
    (n : Nat) (st : RState) :
    (runMerge o epId now ti co n st).1.stored.force_reprocess =
      st.stored.force_reprocess := by
  unfold runMerge
  cases h : o.mergeAndUpload (segList st.stored.id n) epId <;> simp [h]

/-- Synthesize never touches the force-reprocess flag. -/
theorem runSynth_flag (o : ROracles) (epId : String) (now : Nat) (ti co : String)
    (t : Transcript) (st : RState) :
    (runSynth o epId now ti co t st).1.stored.force_reprocess =
      st.stored.force_reprocess := by
  unfold runSynth
  cases h : o.synthesize t st.stored.id <;> simp [h, runMerge_flag]

/-- Script-Generate never touches the force-reprocess flag. -/
theorem runScript_flag (o : ROracles) (epId : String) (now : Nat) (ti co : String)
    (st : RState) :
    (runScript o epId now ti co st).1.stored.force_reprocess =
      st.stored.force_reprocess := by
  unfold runScript
  cases h : o.generateTranscript co ti <;> simp [h, runSynth_flag]

/-- The post-extraction tail never touches the force-reprocess flag. -/
theorem runExtracted_flag (o : ROracles) (cfg : PipelineConfig) (epId : String)
    (now : Nat) (er : ExtractionResult) (content : String) (st : RState) :
    (runExtracted o cfg epId now er content st).1.stored.force_reprocess =
      st.stored.force_reprocess := by
  unfold runExtracted
  by_cases hlen : content.length < cfg.minContentLength
  · simp [hlen]
  · simp [hlen, runScript_flag]

/-- Fetch and Extract never touch the force-reprocess flag. -/
theorem runFetch_flag (o : ROracles) (cfg : PipelineConfig) (epId : String) (now : Nat)
    (st : RState) :
    (runFetch o cfg epId now st).1.stored.force_reprocess =
      st.stored.force_reprocess := by
  unfold runFetch
  cases h1 : o.fetchHtml st.stored.url with
  | error m => simp [h1]
  | ok html =>
    cases h2 : o.extractContent html with
    | error m => simp [h1, h2]
    | ok er =>
      by_cases hlen : er.content.length < cfg.minContentLength
      · cases h3 : o.extractContentWithLLM html with
        | error m => simp [h1, h2, hlen, h3]
        | ok llm => simp [h1, h2, hlen, h3, runExtracted_flag]
      · simp [h1, h2, hlen, runExtracted_flag]

/-- No stage of the staged body touches the force-reprocess flag. -/
theorem processBody_flag (o : ROracles) (cfg : PipelineConfig) (epId : String) (now : Nat)
    (st : RState) :
    (processBody o cfg epId now st).1.stored.force_reprocess =
      st.stored.force_reprocess := by
  unfold processBody
  cases hrp : resumePoint o.parse st.fs st.stored <;>
    simp [hrp, runFetch_flag, runScript_flag, runSynth_flag, runMerge_flag]

/-- A run over an entry with the force-reprocess flag set always ends with
the flag cleared, whatever the collaborators do. -/
theorem processEntryResume_flag (o : ROracles) (cfg : PipelineConfig) (epId : String)
    (now j : Nat) (st : RState) (hf : st.stored.force_reprocess = true) :
    (processEntryResume o cfg epId now j st).1.stored.force_reprocess = false := by
  have hP : (prepState st).stored.force_reprocess = false := by
    simp [prepState, hf]
  rcases hb : processBody o cfg epId now (prepState st) with ⟨st1, out⟩
  have h1 : st1.stored.force_reprocess = false := by
    have hflag := processBody_flag o cfg epId now (prepState st)
    rw [hb] at hflag
    simp at hflag
    rw [hflag, hP]
  rcases out with m | info
  · by_cases hterm : cfg.maxRetries ≤ st1.stored.retry_count + 1 <;>
      simp [processEntryResume, hb, hterm, h1]
  · simp [processEntryResume, hb, h1]

/-- Claim C4: an entry with `force_reprocess = 1` and fully cached
intermediate state reruns every stage (one Fetch, Extract, Script-Generate,
Synthesize and Merge call each, no LLM-extract fallback here), logs usage
for both generation stages (two UsageRecords), succeeds, and — whatever
the collaborators do — ends with `force_reprocess` cleared back to 0. -/
theorem force_reprocess_full_run (o : ROracles) (cfg : PipelineConfig) (epId : String)
    (now j : Nat) (st : RState) (html : String) (er : ExtractionResult)
    (tr : TranscriptResult) (sy : SynthResult) (au : AudioResult)
    (hf : st.stored.force_reprocess = true)
    (h1 : o.fetchHtml st.stored.url = .ok html)
    (h2 : o.extractContent html = .ok er)
    (hlen : cfg.minContentLength ≤ er.content.length)
    (h3 : o.generateTranscript er.content (titleOrUntitled er.title) = .ok tr)
    (h4 : o.synthesize tr.transcript st.stored.id = .ok sy)
    (h5 : o.mergeAndUpload (segList st.stored.id tr.transcript.length) epId = .ok au) :
    ((processEntryResume o cfg epId now j st).1.fetchCalls = st.fetchCalls + 1 ∧
      (processEntryResume o cfg epId now j st).1.extractCalls = st.extractCalls + 1 ∧
      (processEntryResume o cfg epId now j st).1.llmExtractCalls = st.llmExtractCalls ∧
      (processEntryResume o cfg epId now j st).1.scriptCalls = st.scriptCalls + 1 ∧
      (processEntryResume o cfg epId now j st).1.synthCalls = st.synthCalls + 1 ∧
      (processEntryResume o cfg epId now j st).1.mergeCalls = st.mergeCalls + 1 ∧
      (processEntryResume o cfg epId now j st).1.usageLog.length = st.usageLog.length + 2 ∧
      (processEntryResume o cfg epId now j st).2.success = true) ∧
    (∀ o2 : ROracles,
      (processEntryResume o2 cfg epId now j st).1.stored.force_reprocess = false) := by
  refine ⟨?_, fun o2 => processEntryResume_flag o2 cfg epId now j st hf⟩
  have hlen2 : ¬(er.content.length < cfg.minContentLength) := Nat.not_lt.mpr hlen
  simp [processEntryResume, processBody, prepState, hf, resumePoint, runFetch, runExtracted,
    runScript, runSynth, runMerge, h1, h2, h3, h4, h5, hlen2]

/-- Witness for C4 at a concrete flagged entry with full cached state: all
five stages run once, two usage records are logged, the run succeeds and
the flag ends cleared. -/
theorem force_reprocess_full_run_witness :
    (processEntryResume oRok cfg53 "ep1" 50 3 stForce).1.fetchCalls = 1 ∧
    (processEntryResume oRok cfg53 "ep1" 50 3 stForce).1.extractCalls = 1 ∧
    (processEntryResume oRok cfg53 "ep1" 50 3 stForce).1.llmExtractCalls = 0 ∧
    (processEntryResume oRok cfg53 "ep1" 50 3 stForce).1.scriptCalls = 1 ∧
    (processEntryResume oRok cfg53 "ep1" 50 3 stForce).1.synthCalls = 1 ∧
    (processEntryResume oRok cfg53 "ep1" 50 3 stForce).1.mergeCalls = 1 ∧
    (processEntryResume oRok cfg53 "ep1" 50 3 stForce).1.usageLog.length = 2 ∧
    (processEntryResume oRok cfg53 "ep1" 50 3 stForce).2.success = true ∧
    (processEntryResume oRok cfg53 "ep1" 50 3 stForce).1.stored.force_reprocess = false := by
  have h := force_reprocess_full_run oRok cfg53 "ep1" 50 3 stForce "<html>"
    ⟨"Test Article", "abcdefghij"⟩ ⟨tT, "anthropic", "claude", 10, 5⟩ ⟨100⟩
    ⟨"ep.aac", "http://r2/ep.aac", 120, 999⟩ rfl rfl rfl (by decide) rfl rfl rfl
  obtain ⟨⟨a1, a2, a3, a4, a5, a6, a7, a8⟩, hall⟩ := h
  exact ⟨a1, a2, a3, a4, a5, a6, a7, a8, hall oRok⟩

/-- Filtering out the derived segment paths removes every segment file of
the entry. -/
theorem segsCleared_filter (eid : String) (n : Nat) (fs : List String) :
    segsCleared eid n (fs.filter (fun p => !(decide (p ∈ segList eid n)))) := by
  intro i hi
  simp only [List.mem_filter, Bool.not_eq_true', decide_eq_false_iff_not, not_and, not_not]
  intro _
  simp only [segList, List.mem_map, List.mem_range]
  exact ⟨i, hi, rfl⟩

/-- A successful merge reports the count it merged, preserves the entry id
and removes exactly the derived segment paths from the file set. -/
theorem runMerge_ok_fs (o : ROracles) (epId : String) (now : Nat) (ti co : String)
    (n : Nat) (st st' : RState) (info : MergeInfo)
    (h : runMerge o epId now ti co n st = (st', .ok info)) :
    info.segCount = n ∧ st'.stored.id = st.stored.id ∧
    st'.fs = st.fs.filter (fun p => !(decide (p ∈ segList st.stored.id n))) := by
  simp only [runMerge] at h
  split at h
  · simp at h
  · injection h with h1 h2
    injection h2 with h2
    subst h1 h2
    simp

/-- After a successful merge, no segment file of the entry remains. -/
theorem runMerge_ok_clears (o : ROracles) (epId : String) (now : Nat) (ti co : String)
    (n : Nat) (st st' : RState) (info : MergeInfo)
    (h : runMerge o epId now ti co n st = (st', .ok info)) :
    segsCleared st.stored.id info.segCount st'.fs ∧ st'.stored.id = st.stored.id := by
  obtain ⟨h1, h2, h3⟩ := runMerge_ok_fs o epId now ti co n st st' info h
  rw [h3, h1]
  exact ⟨segsCleared_filter _ _ _, h2⟩

/-- A successful run from Synthesize onwards ends with no segment file of
the entry remaining. -/
theorem runSynth_ok_clears (o : ROracles) (epId : String) (now : Nat) (ti co : String)
    (t : Transcript) (st st' : RState) (info : MergeInfo)
    (h : runSynth o epId now ti co t st = (st', .ok info)) :
    segsCleared st.stored.id info.segCount st'.fs ∧ st'.stored.id = st.stored.id := by
  simp only [runSynth] at h
  split at h
  · simp at h
  · obtain ⟨hcl, hid⟩ := runMerge_ok_clears _ _ _ _ _ _ _ _ _ h
    exact ⟨by simpa using hcl, by simpa using hid⟩

/-- A successful run from Script-Generate onwards ends with no segment
file of the entry remaining. -/
theorem runScript_ok_clears (o : ROracles) (epId : String) (now : Nat) (ti co : String)
    (st st' : RState) (info : MergeInfo)
    (h : runScript o epId now ti co st = (st', .ok info)) :
    segsCleared st.stored.id info.segCount st'.fs ∧ st'.stored.id = st.stored.id := by
  simp only [runScript] at h
  split at h
  · simp at h
  · obtain ⟨hcl, hid⟩ := runSynth_ok_clears _ _ _ _ _ _ _ _ _ h
    exact ⟨by simpa using hcl, by simpa using hid⟩

/-- A successful post-extraction tail ends with no segment file of the
entry remaining. -/
theorem runExtracted_ok_clears (o : ROracles) (cfg : PipelineConfig) (epId : String)
    (now : Nat) (er : ExtractionResult) (content : String) (st st' : RState)
    (info : MergeInfo)
    (h : runExtracted o cfg epId now er content st = (st', .ok info)) :
    segsCleared st.stored.id info.segCount st'.fs ∧ st'.stored.id = st.stored.id := by
  simp only [runExtracted] at h
  split at h
  · simp at h
  · obtain ⟨hcl, hid⟩ := runScript_ok_clears _ _ _ _ _ _ _ _ h
    exact ⟨by simpa using hcl, by simpa using hid⟩

/-- A successful run from Fetch onwards ends with no segment file of the
entry remaining. -/
theorem runFetch_ok_clears (o : ROracles) (cfg : PipelineConfig) (epId : String)
    (now : Nat) (st st' : RState) (info : MergeInfo)
    (h : runFetch o cfg epId now st = (st', .ok info)) :
    segsCleared st.stored.id info.segCount st'.fs ∧ st'.stored.id = st.stored.id := by
  simp only [runFetch] at h
  split at h
  · simp at h
  · split at h
    · simp at h
    · split at h
      · split at h
        · simp at h
        · obtain ⟨hcl, hid⟩ := runExtracted_ok_clears _ _ _ _ _ _ _ _ _ h
          exact ⟨by simpa using hcl, by simpa using hid⟩
      · obtain ⟨hcl, hid⟩ := runExtracted_ok_clears _ _ _ _ _ _ _ _ _ h
        exact ⟨by simpa using hcl, by simpa using hid⟩

/-- A successful staged body, from whatever resume point, ends with no
segment file of the entry remaining. -/
theorem processBody_ok_clears (o : ROracles) (cfg : PipelineConfig) (epId : String)
    (now : Nat) (st st' : RState) (info : MergeInfo)
    (h : processBody o cfg epId now st = (st', .ok info)) :
    segsCleared st.stored.id info.segCount st'.fs := by
  simp only [processBody] at h
  split at h
  · exact (runFetch_ok_clears _ _ _ _ _ _ _ h).1
  · exact (runScript_ok_clears _ _ _ _ _ _ _ _ h).1
  · exact (runSynth_ok_clears _ _ _ _ _ _ _ _ _ h).1
  · exact (runMerge_ok_clears _ _ _ _ _ _ _ _ _ h).1

/-- Claim C8: segment-file cleanup is asymmetric.  On success the
top-level returns the body's state, in which every segment file of the
entry has been deleted (after merge); on failure at any stage the failure
handler deletes nothing: the final file set is exactly the file set at the
moment of the failure. -/
theorem segment_cleanup_asymmetry (o : ROracles) (cfg : PipelineConfig) (epId : String)
    (now j : Nat) (st st1 : RState) (out : Except String MergeInfo)
    (hbody : processBody o cfg epId now (prepState st) = (st1, out)) :
    (∀ info, out = .ok info →
      (processEntryResume o cfg epId now j st).1.fs = st1.fs ∧
      segsCleared st.stored.id info.segCount st1.fs) ∧
    (∀ m, out = .error m → (processEntryResume o cfg epId now j st).1.fs = st1.fs) := by
  constructor
  · intro info hout
    subst hout
    refine ⟨by simp [processEntryResume, hbody], ?_⟩
    have h := processBody_ok_clears o cfg epId now (prepState st) st1 info hbody
    obtain ⟨_, _, _, _, _, _, _, _, hid⟩ := prepState_frame st
    rw [hid] at h
    exact h
  · intro m hout
    subst hout
    by_cases hterm : cfg.maxRetries ≤ st1.stored.retry_count + 1 <;>
      simp [processEntryResume, hbody, hterm]

/-- Witness for C8 at the concrete fully-cached entry: the successful run
hands back the body's file set with both segment files gone. -/
theorem segment_cleanup_asymmetry_witness :
    (processEntryResume oRok cfg53 "ep1" 50 3 stFull).1.fs =
      (processBody oRok cfg53 "ep1" 50 (prepState stFull)).1.fs ∧
    segsCleared "e9" 2 (processBody oRok cfg53 "ep1" 50 (prepState stFull)).1.fs :=
  (segment_cleanup_asymmetry oRok cfg53 "ep1" 50 3 stFull
      (processBody oRok cfg53 "ep1" 50 (prepState stFull)).1
      (processBody oRok cfg53 "ep1" 50 (prepState stFull)).2 rfl).1
    ⟨"ep1", 2⟩ rfl
